import Mathlib

/-!
Verification of the MS5803 MicroPython driver (src/src/MS5803.py).

The driver is shallowly embedded: Python integers become Lean `Int`/`Nat`
(Python integers are unbounded, so no wrap-around modelling is needed),
the two-wire bus is an oracle function from (register, length) to the
byte list the device answers, and every bus transaction or sleep is
recorded in a trace of `BusEvent`s.  Python exceptions are modelled with
`Except PyError`.  Python float results of the peripheral unit-conversion
helpers are abstracted as exact rationals; no claim settled here depends
on binary floating-point rounding.
-/

/-- Model of the namedtuple `OSR = namedtuple('OSR', ('address', 'sampling_time'))`
(src/src/MS5803.py line 8). -/
structure OSR where
  address : Nat
  sampling_time : Nat
deriving DecidableEq

/-- Bus oracle: the device side of `i2c.readfrom_mem`.  Given the register
(memory address) and the requested length it yields the bytes the device
returns.  The device address is recorded in the trace instead, since a
session talks to a single physical device. -/
def Device : Type := Nat → Nat → List Nat

/-- One observable action of the driver: an `i2c.writeto_mem`, an
`i2c.readfrom_mem`, or a sleep. -/
inductive BusEvent where
  | write (addr reg : Nat) (payload : List Nat)
  | read (addr reg len : Nat)
  | sleepMs (ms : Nat)
  | sleepS (s : Nat)
deriving DecidableEq

/-- Python exceptions that the embedded code can raise. -/
inductive PyError where
  | assertionError
  | attributeError
  | nameError
deriving DecidableEq

/-- A Python numeric result: an int, or a float (abstracted as a rational). -/
inductive PyNum where
  | int (n : Int)
  | float (q : ℚ)
deriving DecidableEq

/-- Value of the local variables `temp_osr` and `pressure_osr` inside
`get_measurements` (src/src/MS5803.py lines 216-224).  Python is
dynamically typed: after the if/else blocks the local holds either the
caller-supplied `int` or the stored `OSR` namedtuple. -/
inductive PyLocal where
  | intVal (n : Nat)
  | osrVal (o : OSR)
deriving DecidableEq

/-- Command constant `CMD_RESET` (line 79). -/
def CMD_RESET : Nat := 0x1E

/-- Command constant `CMD_PROM` (line 80). -/
def CMD_PROM : Nat := 0xA0

/-- Command constant `CMD_ADC_CONV` (line 81). -/
def CMD_ADC_CONV : Nat := 0x40

/-- Command constant `CMD_ADC_READ` (line 82). -/
def CMD_ADC_READ : Nat := 0x00

/-- Channel constant `PRESSURE` (line 85). -/
def PRESSURE : Nat := 0x00

/-- Channel constant `TEMPERATURE` (line 86). -/
def TEMPERATURE : Nat := 0x10

/-- Module constant `TEMP_UNITS` (line 10).  The source spells the unit
string `celcius`. -/
def TEMP_UNITS : List String := ["fahrenheit", "celcius"]

/-- Module constant `PRESSURE_UNITS` (line 11). -/
def PRESSURE_UNITS : List String := ["pascals", "bar"]

/-- The class-level dictionary `MS5803.OSRs` (lines 89-95), as the lookup
function it is used as. -/
def OSRs (value : Nat) : Option OSR :=
  if value = 256 then some ⟨0x00, 1⟩
  else if value = 512 then some ⟨0x02, 2⟩
  else if value = 1024 then some ⟨0x04, 3⟩
  else if value = 2048 then some ⟨0x06, 5⟩
  else if value = 4096 then some ⟨0x08, 10⟩
  else none

/-- Python left shift `a << n` on unbounded integers. -/
def shiftL (a : Int) (n : Nat) : Int := a * 2 ^ n

/-- Python right shift `a >> n` on unbounded integers: an arithmetic
shift, i.e. division by `2 ^ n` rounding toward negative infinity. -/
def shiftR (a : Int) (n : Nat) : Int := Int.fdiv a (2 ^ n)

/-- Python truthiness of the optional string arguments: `None` and the
empty string are falsy, every other string is truthy. -/
def truthyStr : Option String → Bool
  | none => false
  | some s => !(s == "")

/-- Function `convert_temperature` (lines 13-35).  For a unit string that
is neither `fahrenheit` nor `celcius` the local `converted_temp` is never
bound and the final `return` raises a name error; the call sites always
pass a validated unit.  Division is exact rational division (abstraction
of the Python float). -/
def convert_temperature (temp : Int) (units : String) : Except PyError ℚ :=
  if units = "fahrenheit" then .ok ((temp : ℚ) / 100 * 9 / 5 + 32)
  else if units = "celcius" then .ok ((temp : ℚ) / 100)
  else .error .nameError

/-- Function `convert_pressure` (lines 38-58), same conventions as
`convert_temperature`. -/
def convert_pressure (pressure : Int) (units : String) : Except PyError ℚ :=
  if units = "pascals" then .ok ((pressure : ℚ) / 10)
  else if units = "bar" then .ok ((pressure : ℚ) / 10000)
  else .error .nameError

/-- The mutable attributes of an `MS5803` instance: device address, the
calibration word list `self.C`, and the four validated settings stored by
the property setters (`_temp_units`, `_pressure_units`, `_temp_osr`,
`_pressure_osr`). -/
structure MS5803State where
  address : Nat
  C : List Nat
  temp_units : Option String
  pressure_units : Option String
  temp_osr : OSR
  pressure_osr : OSR
deriving DecidableEq

/-- Property getter `temp_units` (lines 153-155): returns `self._temp_units`. -/
def temp_units_get (s : MS5803State) : Option String := s.temp_units

/-- Property getter `pressure_units` (lines 165-167).  The source returns
`self._temp_units`, the temperature-unit storage, not `self._pressure_units`. -/
def pressure_units_get (s : MS5803State) : Option String := s.temp_units

/-- Property setter `temp_units` (lines 157-163): a truthy value must be a
member of `TEMP_UNITS` (otherwise the `assert` raises) and is stored; a
falsy value (`None` or the empty string) stores `None`. -/
def set_temp_units (s : MS5803State) (value : Option String) : Except PyError MS5803State :=
  match value with
  | some str =>
    if str = "" then .ok { s with temp_units := none }
    else if str ∈ TEMP_UNITS then .ok { s with temp_units := some str }
    else .error .assertionError
  | none => .ok { s with temp_units := none }

/-- Property setter `pressure_units` (lines 169-175), mirror of
`set_temp_units` for `PRESSURE_UNITS` and `_pressure_units`. -/
def set_pressure_units (s : MS5803State) (value : Option String) : Except PyError MS5803State :=
  match value with
  | some str =>
    if str = "" then .ok { s with pressure_units := none }
    else if str ∈ PRESSURE_UNITS then .ok { s with pressure_units := some str }
    else .error .assertionError
  | none => .ok { s with pressure_units := none }

/-- Property setter `temp_osr` (lines 181-184): asserts membership in the
key set of `OSRs` and stores the looked-up `OSR` namedtuple. -/
def set_temp_osr (s : MS5803State) (value : Nat) : Except PyError MS5803State :=
  match OSRs value with
  | some o => .ok { s with temp_osr := o }
  | none => .error .assertionError

/-- Property setter `pressure_osr` (lines 190-193). -/
def set_pressure_osr (s : MS5803State) (value : Nat) : Except PyError MS5803State :=
  match OSRs value with
  | some o => .ok { s with pressure_osr := o }
  | none => .error .assertionError

/-- One iteration body of the loop in `MS5803._begin` (lines 148-150):
the 2-byte big-endian word assembled from the PROM read at register
`CMD_PROM + i * 2`.  The bus contract guarantees a 2-byte answer; a
short answer defaults missing bytes to 0. -/
def prom_word (dev : Device) (i : Nat) : Nat :=
  let buf := dev (CMD_PROM + i * 2) 2
  (buf.getD 0 0) <<< 8 ||| buf.getD 1 0

/-- The `for i in range(n)` loop of `MS5803._begin`, accumulating the bus
trace and the list `self.C` in iteration order. -/
def ms_begin_loop (dev : Device) (addr : Nat) : Nat → List BusEvent × List Nat
  | 0 => ([], [])
  | n + 1 =>
    let prev := ms_begin_loop dev addr n
    (prev.1 ++ [BusEvent.read addr (CMD_PROM + n * 2) 2], prev.2 ++ [prom_word dev n])

/-- Method `MS5803._begin` (lines 133-150): reads the factory PROM with
`range(8)`, i.e. eight 16-bit words from registers `0xA0 + 2 * i` for
`i = 0 .. 7`, and stores all eight in `self.C`. -/
def ms_begin (dev : Device) (addr : Nat) : List BusEvent × List Nat :=
  ms_begin_loop dev addr 8

/-- Names bound at module level in src/src/MS5803.py: the two imported
names (lines 5-6) and the module definitions.  The module name `utime`
itself is never bound (line 5 imports only `sleep_ms` from it), and
`utime` is not a builtin. -/
def module_namespace : List String :=
  ["sleep_ms", "namedtuple", "OSR", "TEMP_UNITS", "PRESSURE_UNITS",
   "convert_temperature", "convert_pressure", "MS5803"]

/-- Method `MS5803.reset` (lines 127-130): writes `CMD_RESET` with an
empty payload, then executes `utime.sleep(3)`.  The lookup of the name
`utime` consults the module namespace and fails, raising a name error, so
the sleep never happens. -/
def reset (addr : Nat) : List BusEvent × Except PyError Unit :=
  ([BusEvent.write addr CMD_RESET []],
   if "utime" ∈ module_namespace then .ok () else .error .nameError)

/-- Method `MS5803._get_ADC_conversion` (lines 277-303) with an `OSR`
namedtuple as `precision`: start-conversion write, sleep, 3-byte ADC
read, and the big-endian reassembly `(buf[0] << 16) + (buf[1] << 8) + buf[2]`. -/
def get_ADC_conversion (dev : Device) (addr : Nat) (measurement : Nat) (precision : OSR) :
    List BusEvent × Nat :=
  let buf := dev CMD_ADC_READ 3
  ([BusEvent.write addr (CMD_ADC_CONV + measurement + precision.address) [],
    BusEvent.sleepMs precision.sampling_time,
    BusEvent.read addr CMD_ADC_READ 3],
   (buf.getD 0 0) <<< 16 + (buf.getD 1 0) <<< 8 + buf.getD 2 0)

/-- `MS5803._get_ADC_conversion` as invoked from `get_measurements` (lines
237-238), where the dynamically typed `precision` argument is either the
stored `OSR` namedtuple or a caller-supplied `int`.  On an `int` the
attribute access `precision.address` on line 294 raises an attribute
error while evaluating the arguments of `writeto_mem`, before any bus
traffic. -/
def get_ADC_conversion_dyn (dev : Device) (addr : Nat) (measurement : Nat) (precision : PyLocal) :
    Except PyError (List BusEvent × Nat) :=
  match precision with
  | .intVal _ => .error .attributeError
  | .osrVal o => .ok (get_ADC_conversion dev addr measurement o)

/-- The second-order temperature-correction block of `get_measurements`
(lines 245-256), producing `(T2, OFF2, SENS2)`.  Note the Python operator
precedence: `3 * x >> 1` is `(3 * x) >> 1`. -/
def second_order (dT temp : Int) : Int × Int × Int :=
  if temp < 2000 then
    let T2 := 3 * shiftR (dT * dT) 33
    let OFF2 := shiftR (3 * ((temp - 2000) * (temp - 2000))) 1
    let SENS2 := shiftR (5 * ((temp - 2000) * (temp - 2000))) 3
    if temp < -1500 then
      (T2, OFF2 + 7 * ((temp + 1500) * (temp + 1500)),
       SENS2 + shiftL ((temp + 1500) * (temp + 1500)) 2)
    else (T2, OFF2, SENS2)
  else
    (shiftR (7 * (dT * dT)) 37, shiftR ((temp - 2000) * (temp - 2000)) 4, 0)

/-- The compensation block of `get_measurements` (lines 241-267): from the
two raw ADC values and the stored word list `self.C` to the raw
`(temp, pressure)` pair, exactly as the source computes it. -/
def compensate (temp_raw pressure_raw : Int) (C : List Int) : Int × Int :=
  let dT := temp_raw - shiftL (C.getD 5 0) 8
  let temp := shiftR (dT * C.getD 6 0) 23 + 2000
  let so := second_order dT temp
  let OFF := shiftL (C.getD 2 0) 16 + shiftR (C.getD 4 0 * dT) 7
  let SENS := shiftL (C.getD 1 0) 15 + shiftR (C.getD 3 0 * dT) 8
  let temp := temp - so.1
  let OFF := OFF - so.2.1
  let SENS := SENS - so.2.2
  let pressure := shiftR (shiftR (SENS * pressure_raw) 21 - OFF) 15
  (temp, pressure)

/-- Modelled from the wording of the specification (claim C1): the
second-order branches exactly as written in the spec, with the
low-temperature extras `OFF2 += 7 * (TEMP + 1500)^2` and
`SENS2 += 4 * (TEMP + 1500)^2`. -/
def spec_second_order (dT TEMP : Int) : Int × Int × Int :=
  if TEMP < 2000 then
    let T2 := 3 * shiftR (dT * dT) 33
    let OFF2 := shiftR (3 * ((TEMP - 2000) * (TEMP - 2000))) 1
    let SENS2 := shiftR (5 * ((TEMP - 2000) * (TEMP - 2000))) 3
    if TEMP < -1500 then
      (T2, OFF2 + 7 * ((TEMP + 1500) * (TEMP + 1500)),
       SENS2 + 4 * ((TEMP + 1500) * (TEMP + 1500)))
    else (T2, OFF2, SENS2)
  else
    (shiftR (7 * (dT * dT)) 37, shiftR ((TEMP - 2000) * (TEMP - 2000)) 4, 0)

/-- Modelled from the wording of the specification (claim C1): the whole
compensation pipeline as the spec states it, over the six calibration
constants `C1 .. C6`. -/
def compensate_spec (raw_temp raw_pressure c1 c2 c3 c4 c5 c6 : Int) : Int × Int :=
  let dT := raw_temp - shiftL c5 8
  let TEMP := 2000 + shiftR (dT * c6) 23
  let so := spec_second_order dT TEMP
  let OFF := shiftL c2 16 + shiftR (c4 * dT) 7 - so.2.1
  let SENS := shiftL c1 15 + shiftR (c3 * dT) 8 - so.2.2
  (TEMP - so.1, shiftR (shiftR (SENS * raw_pressure) 21 - OFF) 15)

/-- The `temp_osr` parameter block of `get_measurements` (lines 216-219).
Python `not temp_osr` is true for `None` and for `0`; an omitted or falsy
argument reads the stored namedtuple via the `temp_osr` property, a
truthy argument runs the validating setter and leaves the local bound to
the supplied `int`. -/
def temp_osr_step (s : MS5803State) : Option Nat → Except PyError (PyLocal × MS5803State)
  | none => .ok (.osrVal s.temp_osr, s)
  | some v =>
    if v = 0 then .ok (.osrVal s.temp_osr, s)
    else (set_temp_osr s v).map (fun s2 => (.intVal v, s2))

/-- The `pressure_osr` parameter block of `get_measurements` (lines 221-224). -/
def pressure_osr_step (s : MS5803State) : Option Nat → Except PyError (PyLocal × MS5803State)
  | none => .ok (.osrVal s.pressure_osr, s)
  | some v =>
    if v = 0 then .ok (.osrVal s.pressure_osr, s)
    else (set_pressure_osr s v).map (fun s2 => (.intVal v, s2))

/-- The `temp_units` parameter block of `get_measurements` (lines 226-229):
a falsy argument reads the `temp_units` property. -/
def temp_units_step (s : MS5803State) : Option String → Except PyError (Option String × MS5803State)
  | none => .ok (temp_units_get s, s)
  | some u =>
    if u = "" then .ok (temp_units_get s, s)
    else (set_temp_units s (some u)).map (fun s2 => (some u, s2))

/-- The `pressure_units` parameter block of `get_measurements` (lines
231-234): a falsy argument reads the `pressure_units` property, which in
the source returns the temperature-unit storage. -/
def pressure_units_step (s : MS5803State) :
    Option String → Except PyError (Option String × MS5803State)
  | none => .ok (pressure_units_get s, s)
  | some u =>
    if u = "" then .ok (pressure_units_get s, s)
    else (set_pressure_units s (some u)).map (fun s2 => (some u, s2))

/-- Line 269-270 of `get_measurements`: convert the temperature when the
effective unit local is truthy, otherwise return the raw int. -/
def apply_temp_units (t : Int) : Option String → Except PyError PyNum
  | none => .ok (.int t)
  | some u =>
    if u = "" then .ok (.int t)
    else (convert_temperature t u).map .float

/-- Line 271-272 of `get_measurements`: convert the pressure when the
effective unit local is truthy. -/
def apply_pressure_units (p : Int) : Option String → Except PyError PyNum
  | none => .ok (.int p)
  | some u =>
    if u = "" then .ok (.int p)
    else (convert_pressure p u).map .float

/-- Method `MS5803.get_measurements` (lines 195-274).  The result is the
session state after the call (Python keeps attribute mutations made
before an exception), the bus trace, and either the returned
`(temp, pressure)` pair or the exception raised. -/
def get_measurements (dev : Device) (s0 : MS5803State)
    (temp_osr pressure_osr : Option Nat) (temp_units pressure_units : Option String) :
    MS5803State × List BusEvent × Except PyError (PyNum × PyNum) :=
  match temp_osr_step s0 temp_osr with
  | .error e => (s0, [], .error e)
  | .ok (tL, s1) =>
    match pressure_osr_step s1 pressure_osr with
    | .error e => (s1, [], .error e)
    | .ok (pL, s2) =>
      match temp_units_step s2 temp_units with
      | .error e => (s2, [], .error e)
      | .ok (tUL, s3) =>
        match pressure_units_step s3 pressure_units with
        | .error e => (s3, [], .error e)
        | .ok (pUL, s4) =>
          match get_ADC_conversion_dyn dev s4.address TEMPERATURE tL with
          | .error e => (s4, [], .error e)
          | .ok (trT, temp_raw) =>
            match get_ADC_conversion_dyn dev s4.address PRESSURE pL with
            | .error e => (s4, trT, .error e)
            | .ok (trP, pressure_raw) =>
              let tp := compensate (temp_raw : Int) (pressure_raw : Int)
                (s4.C.map (fun n => (n : Int)))
              match apply_temp_units tp.1 tUL with
              | .error e => (s4, trT ++ trP, .error e)
              | .ok tOut =>
                match apply_pressure_units tp.2 pUL with
                | .error e => (s4, trT ++ trP, .error e)
                | .ok pOut => (s4, trT ++ trP, .ok (tOut, pOut))

/-- Constructor `MS5803.__init__` (lines 97-124): `self._begin()` runs
first, then the four property setters validate and store the settings
(defaults: OSR 256 for both channels, units `None`).  A failing setter
aborts construction; the PROM trace has already been issued.  The
pre-setter placeholder fields model attributes that Python would leave
unbound until the setters assign them. -/
def init (dev : Device) (address : Nat) (temp_osr pressure_osr : Nat)
    (temp_units pressure_units : Option String) :
    List BusEvent × Except PyError MS5803State :=
  let b := ms_begin dev address
  let s0 : MS5803State :=
    { address := address, C := b.2, temp_units := none, pressure_units := none,
      temp_osr := ⟨0, 0⟩, pressure_osr := ⟨0, 0⟩ }
  match set_temp_osr s0 temp_osr with
  | .error e => (b.1, .error e)
  | .ok s1 =>
    match set_pressure_osr s1 pressure_osr with
    | .error e => (b.1, .error e)
    | .ok s2 =>
      match set_temp_units s2 temp_units with
      | .error e => (b.1, .error e)
      | .ok s3 =>
        match set_pressure_units s3 pressure_units with
        | .error e => (b.1, .error e)
        | .ok s4 => (b.1, .ok s4)

/-- A concrete bus oracle used for witnesses: the device answers every
read with the bytes `[17, 34, 51]` (truncated to the requested length by
the byte accessors). -/
def dev0 : Device := fun _ _ => [17, 34, 51]

/-- A concrete session state used for witnesses, with the calibration
words of the example vector in the specification. -/
def s0 : MS5803State :=
  { address := 0x76
    C := [0, 28986, 25092, 14595, 24979, 30347, 20787, 0]
    temp_units := some "celcius"
    pressure_units := some "pascals"
    temp_osr := ⟨0x00, 1⟩
    pressure_osr := ⟨0x00, 1⟩ }

instance {ε α : Type} [DecidableEq ε] [DecidableEq α] : DecidableEq (Except ε α) := fun x y =>
  match x, y with
  | .ok a, .ok b =>
    if h : a = b then .isTrue (by rw [h]) else .isFalse (fun c => h (by injection c))
  | .ok _, .error _ => .isFalse (fun c => Except.noConfusion c)
  | .error _, .ok _ => .isFalse (fun c => Except.noConfusion c)
  | .error e, .error f =>
    if h : e = f then .isTrue (by rw [h]) else .isFalse (fun c => h (by injection c))

/-- Helper: a bitwise or with a value below `2 ^ n` attaches it to the low
bits of a left shift by `n`, so the or coincides with addition. -/
theorem shiftLeft_or_eq_add (a b n : Nat) (h : b < 2 ^ n) : a <<< n ||| b = a <<< n + b := by
  rw [Nat.shiftLeft_eq, Nat.mul_comm, ← Nat.mul_add_lt_is_or h]

/-- Helper: a `List.getD _ _ 0` over a list of bytes is itself below 256. -/
theorem getD_lt_256 (l : List Nat) (i : Nat) (hl : ∀ b ∈ l, b < 256) : l.getD i 0 < 256 := by
  rcases h : l[i]? with _ | b
  · simp [List.getD_eq_getElem?_getD, h]
  · have hm : b ∈ l := List.getElem?_mem h
    simp only [List.getD_eq_getElem?_getD, h, Option.getD_some]
    exact hl b hm

/-- Helper: the second-order block of the source agrees with the branches
as the specification writes them (the only syntactic difference is
`x << 2` versus `4 * x` in the very-low-temperature SENS2 extra). -/
theorem second_order_eq_spec (dT t : Int) : second_order dT t = spec_second_order dT t := by
  unfold second_order spec_second_order
  split_ifs <;> first
    | rfl
    | (simp only [shiftL, Prod.mk.injEq]
       refine ⟨by ring_nf, by ring_nf, by ring_nf⟩)

/-- Claim C1: for every pair of raw ADC values and every list of loaded
calibration words, the compensation block of `get_measurements` computes
exactly the formulas of the specification — `dT = raw_temp - (C5 << 8)`,
`TEMP = 2000 + ((dT * C6) >> 23)`, the two second-order temperature
branches, `OFF = (C2 << 16) + ((C4 * dT) >> 7) - OFF2`,
`SENS = (C1 << 15) + ((C3 * dT) >> 8) - SENS2`, returned temperature
`TEMP - T2` and returned pressure `(((SENS * raw_pressure) >> 21) - OFF) >> 15`,
with every right shift an arithmetic shift (`shiftR`, floor division by a
power of two, truncating toward negative infinity). -/
theorem compensation_matches_spec (rt rp c0 c1 c2 c3 c4 c5 c6 c7 : Int) :
    compensate rt rp [c0, c1, c2, c3, c4, c5, c6, c7] =
      compensate_spec rt rp c1 c2 c3 c4 c5 c6 := by
  simp only [compensate, compensate_spec, second_order_eq_spec,
    List.getD_cons_zero, List.getD_cons_succ]
  rw [Int.add_comm (shiftR ((rt - shiftL c5 8) * c6) 23) 2000]

/-- Concrete instance of `compensation_matches_spec` on the example input
vector of the specification (raw_temp 8077636, raw_pressure 4298154). -/
theorem compensation_matches_spec_witness :
    compensate 8077636 4298154 [0, 28986, 25092, 14595, 24979, 30347, 20787, 0] =
      compensate_spec 8077636 4298154 28986 25092 14595 24979 30347 20787 :=
  compensation_matches_spec 8077636 4298154 0 28986 25092 14595 24979 30347 20787 0

/-- Claim C2, counterexample: the loader does not read exactly 6 words
from PROM offsets 1..6.  On a concrete device it issues 8 bus reads,
stores 8 words, and its trace differs from the 6-read trace the claim
describes. -/
theorem ms_begin_not_six_words :
    (ms_begin dev0 0x76).1.length = 8 ∧ (ms_begin dev0 0x76).2.length = 8 ∧
    (ms_begin dev0 0x76).1 ≠
      (List.range 6).map (fun i => BusEvent.read 0x76 (CMD_PROM + (i + 1) * 2) 2) := by
  refine ⟨rfl, rfl, by decide⟩

/-- Claim C2, amended: on session creation the loader reads 8 sequential
16-bit big-endian words from PROM register offsets 0..7 (registers
`0xA0 + 2 * i`) and stores all 8 in order as `self.C`; each stored word
is an unsigned 16-bit integer whenever the bus answers bytes, and the
words at indices 1..6 serve as the calibration constants C1..C6 of the
compensation. -/
theorem ms_begin_reads_eight_words (dev : Device) (addr : Nat)
    (hb : ∀ reg n b, b ∈ dev reg n → b < 256) :
    (ms_begin dev addr).1 =
      (List.range 8).map (fun i => BusEvent.read addr (CMD_PROM + i * 2) 2) ∧
    (ms_begin dev addr).2 = (List.range 8).map (fun i => prom_word dev i) ∧
    (ms_begin dev addr).2.all (fun w => decide (w < 65536)) = true := by
  refine ⟨rfl, rfl, ?_⟩
  rw [List.all_eq_true]
  intro word hword
  simp only [decide_eq_true_eq]
  have h2 : (ms_begin dev addr).2 = (List.range 8).map (fun i => prom_word dev i) := rfl
  rw [h2, List.mem_map] at hword
  obtain ⟨i, -, rfl⟩ := hword
  unfold prom_word
  have hb0 : (dev (CMD_PROM + i * 2) 2).getD 0 0 < 256 :=
    getD_lt_256 _ _ (fun b hm => hb _ _ b hm)
  have hb1 : (dev (CMD_PROM + i * 2) 2).getD 1 0 < 256 :=
    getD_lt_256 _ _ (fun b hm => hb _ _ b hm)
  rw [shiftLeft_or_eq_add _ _ 8 (by omega)]
  have : (dev (CMD_PROM + i * 2) 2).getD 0 0 <<< 8 =
      (dev (CMD_PROM + i * 2) 2).getD 0 0 * 256 := by rw [Nat.shiftLeft_eq]
  omega

/-- Concrete instance of `ms_begin_reads_eight_words` on the witness
device `dev0`. -/
theorem ms_begin_reads_eight_words_witness :
    (ms_begin dev0 0x76).1 =
      (List.range 8).map (fun i => BusEvent.read 0x76 (CMD_PROM + i * 2) 2) ∧
    (ms_begin dev0 0x76).2 = (List.range 8).map (fun i => prom_word dev0 i) ∧
    (ms_begin dev0 0x76).2.all (fun w => decide (w < 65536)) = true :=
  ms_begin_reads_eight_words dev0 0x76 (by
    intro reg n b hbm
    simp only [dev0, List.mem_cons, List.not_mem_nil, or_false] at hbm
    rcases hbm with rfl | rfl | rfl <;> decide)

/-- Claim C3 (code evaluated at the failing input): supplying a valid
`temp_osr` of 512 to `get_measurements` updates the stored session
default, but the call then raises an attribute error instead of
returning a measurement pair — the local variable still holds the `int`
512, and `_get_ADC_conversion` accesses `.address` on it (line 294).  No
bus traffic occurs. -/
theorem get_measurements_supplied_osr_crashes :
    get_measurements dev0 s0 (some 512) none none none =
      ({ s0 with temp_osr := ⟨0x02, 2⟩ }, [], .error .attributeError) := rfl

/-- Claim C4 (code evaluated at the failing input): with the temperature
unit stored as `celcius`, setting the pressure unit to `bar` succeeds,
yet the `pressure_units` property getter returns `celcius` — it reads
the temperature-unit storage (line 167) — while the pressure-unit
storage actually holds `bar`. -/
theorem pressure_units_getter_reads_temp_units :
    set_pressure_units s0 (some "bar") = .ok { s0 with pressure_units := some "bar" } ∧
    pressure_units_get { s0 with pressure_units := some "bar" } = some "celcius" ∧
    ({ s0 with pressure_units := some "bar" } : MS5803State).pressure_units = some "bar" :=
  ⟨rfl, rfl, rfl⟩

/-- Claim C5: for either channel and every valid OSR, one ADC conversion
issues the start command `0x40 ||| channel ||| modifier` with empty
payload, sleeps the minimum conversion time of the OSR, issues the fixed
read command `0x00` for exactly 3 bytes, and returns
`(b0 << 16) ||| (b1 << 8) ||| b2`. -/
theorem get_ADC_conversion_sequence (dev : Device) (addr m osr_val : Nat) (o : OSR)
    (b0 b1 b2 : Nat)
    (hm : m = PRESSURE ∨ m = TEMPERATURE)
    (ho : OSRs osr_val = some o)
    (hdev : dev CMD_ADC_READ 3 = [b0, b1, b2])
    (h1 : b1 < 256) (h2 : b2 < 256) :
    get_ADC_conversion dev addr m o =
      ([BusEvent.write addr (CMD_ADC_CONV ||| m ||| o.address) [],
        BusEvent.sleepMs o.sampling_time,
        BusEvent.read addr CMD_ADC_READ 3],
       b0 <<< 16 ||| b1 <<< 8 ||| b2) := by
  have hcmd : CMD_ADC_CONV + m + o.address = CMD_ADC_CONV ||| m ||| o.address := by
    unfold OSRs at ho
    split_ifs at ho <;>
      (injection ho with ho; subst ho; rcases hm with rfl | rfl <;> decide)
  have hb1 : b1 <<< 8 < 2 ^ 16 := by
    have : b1 <<< 8 = b1 * 256 := by rw [Nat.shiftLeft_eq]
    omega
  have hres : b0 <<< 16 ||| b1 <<< 8 ||| b2 = b0 <<< 16 + b1 <<< 8 + b2 := by
    rw [shiftLeft_or_eq_add b0 _ 16 hb1]
    have h16 : b0 <<< 16 + b1 <<< 8 = (b0 <<< 8 + b1) <<< 8 := by
      simp only [Nat.shiftLeft_eq]
      ring
    rw [h16, shiftLeft_or_eq_add _ b2 8 h2, ← h16]
  unfold get_ADC_conversion
  rw [hdev, hcmd, hres]
  rfl

/-- Concrete instance of `get_ADC_conversion_sequence`: temperature
channel, OSR 512, device answering bytes `[17, 34, 51]`. -/
theorem get_ADC_conversion_sequence_witness :
    get_ADC_conversion dev0 0x76 TEMPERATURE ⟨0x02, 2⟩ =
      ([BusEvent.write 0x76 (CMD_ADC_CONV ||| TEMPERATURE ||| 0x02) [],
        BusEvent.sleepMs 2,
        BusEvent.read 0x76 CMD_ADC_READ 3],
       17 <<< 16 ||| 34 <<< 8 ||| 51) :=
  get_ADC_conversion_sequence dev0 0x76 TEMPERATURE 512 ⟨0x02, 2⟩ 17 34 51
    (Or.inr rfl) rfl rfl (by decide) (by decide)

/-- Claim C6: the branch thresholds of the second-order correction are
strict.  At first-order TEMP exactly 2000 the non-low-temperature branch
runs (`T2 = (7 * dT^2) >> 37`, `OFF2 = (TEMP - 2000)^2 >> 4`,
`SENS2 = 0`), at 1999 the low-temperature branch runs; at TEMP exactly
-1500 the very-low-temperature extra is not applied, at -1501 it is. -/
theorem second_order_boundaries (dT : Int) :
    second_order dT 2000 =
      (shiftR (7 * (dT * dT)) 37, shiftR ((2000 - 2000) * (2000 - 2000)) 4, 0) ∧
    second_order dT 1999 =
      (3 * shiftR (dT * dT) 33, shiftR (3 * ((1999 - 2000) * (1999 - 2000))) 1,
       shiftR (5 * ((1999 - 2000) * (1999 - 2000))) 3) ∧
    second_order dT (-1500) =
      (3 * shiftR (dT * dT) 33, shiftR (3 * ((-1500 - 2000) * (-1500 - 2000))) 1,
       shiftR (5 * ((-1500 - 2000) * (-1500 - 2000))) 3) ∧
    second_order dT (-1501) =
      (3 * shiftR (dT * dT) 33,
       shiftR (3 * ((-1501 - 2000) * (-1501 - 2000))) 1 + 7 * ((-1501 + 1500) * (-1501 + 1500)),
       shiftR (5 * ((-1501 - 2000) * (-1501 - 2000))) 3 +
         shiftL ((-1501 + 1500) * (-1501 + 1500)) 2) := by
  refine ⟨?_, ?_, ?_, ?_⟩ <;> simp [second_order]

/-- Concrete instance of `second_order_boundaries` at `dT = 5`. -/
theorem second_order_boundaries_witness :
    second_order 5 2000 =
      (shiftR (7 * (5 * 5)) 37, shiftR ((2000 - 2000) * (2000 - 2000)) 4, 0) ∧
    second_order 5 1999 =
      (3 * shiftR (5 * 5) 33, shiftR (3 * ((1999 - 2000) * (1999 - 2000))) 1,
       shiftR (5 * ((1999 - 2000) * (1999 - 2000))) 3) ∧
    second_order 5 (-1500) =
      (3 * shiftR (5 * 5) 33, shiftR (3 * ((-1500 - 2000) * (-1500 - 2000))) 1,
       shiftR (5 * ((-1500 - 2000) * (-1500 - 2000))) 3) ∧
    second_order 5 (-1501) =
      (3 * shiftR (5 * 5) 33,
       shiftR (3 * ((-1501 - 2000) * (-1501 - 2000))) 1 + 7 * ((-1501 + 1500) * (-1501 + 1500)),
       shiftR (5 * ((-1501 - 2000) * (-1501 - 2000))) 3 +
         shiftL ((-1501 + 1500) * (-1501 + 1500)) 2) :=
  second_order_boundaries 5

/-- Claim C7, counterexample: the empty string is a unit string outside
the fixed unit set, yet assigning it to the `temp_units` setter raises
nothing and silently replaces the stored default `celcius` with `None`
(Python truthiness: `if value:` treats the empty string as absent). -/
theorem set_temp_units_empty_string_accepted :
    s0.temp_units = some "celcius" ∧ "" ∉ TEMP_UNITS ∧
    set_temp_units s0 (some "") = .ok { s0 with temp_units := none } :=
  ⟨rfl, by decide, rfl⟩

/-- Claim C7, amended: an OSR value outside {256, 512, 1024, 2048, 4096}
raises the configuration assertion synchronously from either OSR setter
and produces no new state, and a NON-EMPTY unit string outside the fixed
unit set does the same from either unit setter; the empty string (and
`None`) is instead treated as unset and silently stores `None`. -/
theorem invalid_configuration_rejected :
    (∀ (s : MS5803State) (v : Nat), OSRs v = none →
      set_temp_osr s v = .error .assertionError ∧
      set_pressure_osr s v = .error .assertionError) ∧
    (∀ (s : MS5803State) (u : String), u ≠ "" → u ∉ TEMP_UNITS →
      set_temp_units s (some u) = .error .assertionError) ∧
    (∀ (s : MS5803State) (u : String), u ≠ "" → u ∉ PRESSURE_UNITS →
      set_pressure_units s (some u) = .error .assertionError) ∧
    (∀ s : MS5803State,
      set_temp_units s (some "") = .ok { s with temp_units := none } ∧
      set_pressure_units s (some "") = .ok { s with pressure_units := none }) := by
  refine ⟨?_, ?_, ?_, fun s => ⟨rfl, rfl⟩⟩
  · intro s v hv
    exact ⟨by simp [set_temp_osr, hv], by simp [set_pressure_osr, hv]⟩
  · intro s u h1 h2
    simp [set_temp_units, h1, h2]
  · intro s u h1 h2
    simp [set_pressure_units, h1, h2]

/-- Concrete instance of `invalid_configuration_rejected`: OSR 100 and
unit string `kelvin` are both rejected with the prior state intact. -/
theorem invalid_configuration_rejected_witness :
    set_temp_osr s0 100 = .error .assertionError ∧
    set_pressure_osr s0 100 = .error .assertionError ∧
    set_temp_units s0 (some "kelvin") = .error .assertionError ∧
    set_pressure_units s0 (some "kelvin") = .error .assertionError :=
  ⟨(invalid_configuration_rejected.1 s0 100 rfl).1,
   (invalid_configuration_rejected.1 s0 100 rfl).2,
   invalid_configuration_rejected.2.1 s0 "kelvin" (by decide) (by decide),
   invalid_configuration_rejected.2.2.1 s0 "kelvin" (by decide) (by decide)⟩

/-- Claim C8: the static OSR table maps 256 to (0x00, 1 ms), 512 to
(0x02, 2 ms), 1024 to (0x04, 3 ms), 2048 to (0x06, 5 ms) and 4096 to
(0x08, 10 ms), exactly the literal table of the source (the table is a
constant definition, so it is never mutated). -/
theorem OSRs_table :
    OSRs 256 = some ⟨0x00, 1⟩ ∧ OSRs 512 = some ⟨0x02, 2⟩ ∧ OSRs 1024 = some ⟨0x04, 3⟩ ∧
    OSRs 2048 = some ⟨0x06, 5⟩ ∧ OSRs 4096 = some ⟨0x08, 10⟩ :=
  ⟨rfl, rfl, rfl, rfl, rfl⟩

/-- Claim C9 (code evaluated at the failing input): `reset` writes the
reset command 0x1E with empty payload to the device address, but then
raises a name error — line 130 references `utime`, which the module
never binds (line 5 imports only `sleep_ms` from it) — so it never
waits before returning, and in particular the trace — exactly one write
event — holds no sleep. -/
theorem reset_raises_name_error (addr : Nat) :
    reset addr = ([BusEvent.write addr CMD_RESET []], .error .nameError) :=
  rfl

/-- Claim C10: `get_measurements` applies supplied parameters in the
fixed order temp_osr, pressure_osr, temp_units, pressure_units before
any bus traffic.  When the last parameter is invalid the call raises the
configuration assertion with an empty bus trace — no conversion is
performed — yet the session state keeps every update made by the earlier
valid parameters of the same call: the configuration update is not
atomic. -/
theorem get_measurements_sequential_config (dev : Device) (s : MS5803State)
    (v w : Nat) (o1 o2 : OSR) (tu pu : String)
    (hv : OSRs v = some o1) (hw : OSRs w = some o2)
    (htu : tu ∈ TEMP_UNITS)
    (hpu1 : pu ≠ "") (hpu2 : pu ∉ PRESSURE_UNITS) :
    get_measurements dev s (some v) (some w) (some tu) (some pu) =
      ({ s with temp_osr := o1, pressure_osr := o2, temp_units := some tu },
       [], .error .assertionError) := by
  have hv0 : v ≠ 0 := by intro h; subst h; simp [OSRs] at hv
  have hw0 : w ≠ 0 := by intro h; subst h; simp [OSRs] at hw
  have htu0 : tu ≠ "" := by
    simp only [TEMP_UNITS, List.mem_cons, List.not_mem_nil, or_false] at htu
    rcases htu with rfl | rfl <;> decide
  simp only [get_measurements, temp_osr_step, pressure_osr_step, temp_units_step,
    pressure_units_step, set_temp_osr, set_pressure_osr, set_temp_units, set_pressure_units,
    hv, hw, hv0, hw0, htu0, htu, hpu1, hpu2, if_neg, if_pos, Except.map, ite_false, ite_true,
    if_false, if_true, not_false_iff]

/-- Concrete instance of `get_measurements_sequential_config`: OSRs 512
and 1024 and unit `fahrenheit` are stored, then the invalid pressure
unit `kelvin` raises before any conversion. -/
theorem get_measurements_sequential_config_witness :
    get_measurements dev0 s0 (some 512) (some 1024) (some "fahrenheit") (some "kelvin") =
      ({ s0 with temp_osr := ⟨0x02, 2⟩, pressure_osr := ⟨0x04, 3⟩, temp_units := some "fahrenheit" },
       [], .error .assertionError) :=
  get_measurements_sequential_config dev0 s0 512 1024 ⟨0x02, 2⟩ ⟨0x04, 3⟩
    "fahrenheit" "kelvin" rfl rfl (by decide) (by decide) (by decide)
